import Mathlib

/-!
A shallow embedding of the system power-management orchestrator in
drivers/base/power/main.c: the per-device callback dispatch, the phase
drivers (prepare, suspend, suspend-noirq, resume-noirq, resume, complete),
the completion/wait protocol and the watchdog, together with proofs about
them.  Device callbacks are external code; a callback is modelled by the
integer result it returns when invoked (`none` models a NULL function
pointer).
-/

set_option maxHeartbeats 1000000

namespace LinuxPm

/-- Device PM status codes.  Modelled from the spec: the enumeration
`enum dpm_state` is declared in a kernel header that is not among the
source files; the constructors and their numeric order are the ones the
comparisons in drivers/base/power/main.c rely on
(DPM_ON < DPM_PREPARING < DPM_RESUMING < DPM_SUSPENDING < DPM_OFF <
DPM_OFF_IRQ). -/
inductive DpmState
  | DPM_INVALID
  | DPM_ON
  | DPM_PREPARING
  | DPM_RESUMING
  | DPM_SUSPENDING
  | DPM_OFF
  | DPM_OFF_IRQ
deriving DecidableEq

/-- Numeric value of a status, in the order the C enum declares them. -/
def DpmState.code : DpmState → Nat
  | .DPM_INVALID => 0
  | .DPM_ON => 1
  | .DPM_PREPARING => 2
  | .DPM_RESUMING => 3
  | .DPM_SUSPENDING => 4
  | .DPM_OFF => 5
  | .DPM_OFF_IRQ => 6

/-- errno value EAGAIN (callbacks report failure as -EAGAIN). -/
def EAGAIN : Int := 11

/-- errno value EBUSY. -/
def EBUSY : Int := 16

/-- The `struct dev_pm_ops` slots used by main.c.  Each callback is
modelled by the integer it returns when invoked; `none` is a NULL
function pointer.  The `complete` callback returns void, so it is
modelled by a presence marker only. -/
structure PmOps where
  prepare : Option Int := none
  suspend : Option Int := none
  resume : Option Int := none
  suspend_noirq : Option Int := none
  resume_noirq : Option Int := none
  complete : Option Unit := none
deriving DecidableEq

/-- The fields of `struct class` read by main.c: the structured pm table
and the legacy suspend/resume functions. -/
structure DevClass where
  pm : Option PmOps := none
  suspend : Option Int := none
  resume : Option Int := none
deriving DecidableEq

/-- The fields of `struct device_type` read by main.c (it has no legacy
suspend/resume functions). -/
structure DevType where
  pm : Option PmOps := none
deriving DecidableEq

/-- The fields of `struct bus_type` read by main.c. -/
structure DevBus where
  pm : Option PmOps := none
  suspend : Option Int := none
  resume : Option Int := none
deriving DecidableEq

/-- A device as main.c sees it.  `devClass` and `devType` model
`dev->class` and `dev->type` (renamed because `class` and `type` are
keywords here).  `runtime_barrier` models `pm_runtime_barrier(dev)`
returning nonzero, `may_wakeup` models `device_may_wakeup(dev)`. -/
structure Dev where
  id : Nat := 0
  devClass : Option DevClass := none
  devType : Option DevType := none
  bus : Option DevBus := none
  runtime_barrier : Bool := false
  may_wakeup : Bool := false
  async_suspend : Bool := false
deriving DecidableEq

/-- One entry of dpm_list: the device together with the state the PM core
owns (`dev->power.status` and the completion).  device_pm_init sets the
status to DPM_ON and leaves the completion signaled. -/
structure DevEntry where
  dev : Dev
  status : DpmState := .DPM_ON
  completionSignaled : Bool := true
deriving DecidableEq

/-- The three dispatch tiers of the capability lookup. -/
inductive Tier
  | tClass
  | tType
  | tBus
deriving DecidableEq

/-- Whether an invocation went through the structured pm table or a
legacy single function. -/
inductive CbKind
  | structured
  | legacy
deriving DecidableEq

/-- A record of one callback invocation: which tier and which kind. -/
structure Inv where
  tier : Tier
  kind : CbKind
deriving DecidableEq

/-- dpm_run_callback: a NULL callback yields 0 without any invocation;
otherwise the callback runs and its result is returned verbatim. -/
def dpm_run_callback (t : Tier) (cb : Option Int) : Int × List Inv :=
  match cb with
  | none => (0, [])
  | some e => (e, [⟨t, .structured⟩])

/-- legacy_suspend / a direct legacy call: the guard at the call site
ensures the function pointer is non-NULL, so it always runs. -/
def legacy_call (t : Tier) (e : Int) : Int × List Inv :=
  (e, [⟨t, .legacy⟩])

/-- The class tier of __device_suspend (main.c lines 746-756): if
`dev->class` is set, prefer `dev->class->pm->suspend` when a structured
pm table exists, else fall back to the legacy `dev->class->suspend`. -/
def classSuspendTier (d : Dev) : Int × List Inv :=
  match d.devClass with
  | none => (0, [])
  | some c =>
    match c.pm with
    | some pm => dpm_run_callback .tClass pm.suspend
    | none =>
      match c.suspend with
      | some e => legacy_call .tClass e
      | none => (0, [])

/-- The type tier of __device_suspend (lines 758-765): only the
structured `dev->type->pm->suspend` exists; there is no legacy form. -/
def typeSuspendTier (d : Dev) : Int × List Inv :=
  match d.devType with
  | none => (0, [])
  | some t =>
    match t.pm with
    | some pm => dpm_run_callback .tType pm.suspend
    | none => (0, [])

/-- The bus tier of __device_suspend (lines 767-775): structured
`dev->bus->pm->suspend` preferred over legacy `dev->bus->suspend`. -/
def busSuspendTier (d : Dev) : Int × List Inv :=
  match d.bus with
  | none => (0, [])
  | some b =>
    match b.pm with
    | some pm => dpm_run_callback .tBus pm.suspend
    | none =>
      match b.suspend with
      | some e => legacy_call .tBus e
      | none => (0, [])

/-- The callback section of __device_suspend (lines 746-775): class,
then type, then bus, jumping to End at the first nonzero result.  In the
C source each error test sits inside the tier's own `if`; that is
equivalent to testing after every tier because the error is zero when a
tier is absent. -/
def deviceSuspendCbs (d : Dev) : Int × List Inv :=
  let cls := classSuspendTier d
  if cls.1 ≠ 0 then cls
  else
    let typ := typeSuspendTier d
    if typ.1 ≠ 0 then (typ.1, cls.2 ++ typ.2)
    else
      let bus := busSuspendTier d
      (bus.1, cls.2 ++ typ.2 ++ bus.2)

/-- The bus tier of device_resume (lines 393-403): structured
`dev->bus->pm->resume` preferred over legacy `dev->bus->resume`. -/
def busResumeTier (d : Dev) : Int × List Inv :=
  match d.bus with
  | none => (0, [])
  | some b =>
    match b.pm with
    | some pm => dpm_run_callback .tBus pm.resume
    | none =>
      match b.resume with
      | some e => legacy_call .tBus e
      | none => (0, [])

/-- The type tier of device_resume (lines 405-412): structured only. -/
def typeResumeTier (d : Dev) : Int × List Inv :=
  match d.devType with
  | none => (0, [])
  | some t =>
    match t.pm with
    | some pm => dpm_run_callback .tType pm.resume
    | none => (0, [])

/-- The class tier of device_resume (lines 414-422): structured
`dev->class->pm->resume` preferred over legacy `dev->class->resume`. -/
def classResumeTier (d : Dev) : Int × List Inv :=
  match d.devClass with
  | none => (0, [])
  | some c =>
    match c.pm with
    | some pm => dpm_run_callback .tClass pm.resume
    | none =>
      match c.resume with
      | some e => legacy_call .tClass e
      | none => (0, [])

/-- The callback section of device_resume (lines 393-422): bus, then
type, then class, jumping to End at the first nonzero result. -/
def deviceResumeCbs (d : Dev) : Int × List Inv :=
  let bus := busResumeTier d
  if bus.1 ≠ 0 then bus
  else
    let typ := typeResumeTier d
    if typ.1 ≠ 0 then (typ.1, bus.2 ++ typ.2)
    else
      let cls := classResumeTier d
      (cls.1, bus.2 ++ typ.2 ++ cls.2)

/-- One dispatch tier as the spec describes it: an optional structured
pm table (whose phase slot may itself be NULL) and an optional legacy
function. -/
structure TierSlot where
  tier : Tier
  structuredTable : Option (Option Int)
  legacyFn : Option Int

/-- Run one spec-level tier: the structured callback is used whenever a
structured pm table is present (the two forms are mutually exclusive per
tier), otherwise the legacy function if present. -/
def TierSlot.run (s : TierSlot) : Int × List Inv :=
  match s.structuredTable with
  | some cb => dpm_run_callback s.tier cb
  | none =>
    match s.legacyFn with
    | some e => legacy_call s.tier e
    | none => (0, [])

/-- Spec-level dispatch: evaluate the tiers in the given fixed order,
stopping at the first tier whose callback returns a nonzero result. -/
def runTiers : List TierSlot → Int × List Inv
  | [] => (0, [])
  | s :: rest =>
    let r := s.run
    if r.1 ≠ 0 then r
    else
      let r2 := runTiers rest
      (r2.1, r.2 ++ r2.2)

/-- The suspend-direction tier list: class, then type, then bus. -/
def suspendSlots (d : Dev) : List TierSlot :=
  [ ⟨.tClass, d.devClass.bind fun c => c.pm.map fun pm => pm.suspend,
      d.devClass.bind fun c => c.suspend⟩,
    ⟨.tType, d.devType.bind fun t => t.pm.map fun pm => pm.suspend, none⟩,
    ⟨.tBus, d.bus.bind fun b => b.pm.map fun pm => pm.suspend,
      d.bus.bind fun b => b.suspend⟩ ]

/-- The resume-direction tier list: bus, then type, then class. -/
def resumeSlots (d : Dev) : List TierSlot :=
  [ ⟨.tBus, d.bus.bind fun b => b.pm.map fun pm => pm.resume,
      d.bus.bind fun b => b.resume⟩,
    ⟨.tType, d.devType.bind fun t => t.pm.map fun pm => pm.resume, none⟩,
    ⟨.tClass, d.devClass.bind fun c => c.pm.map fun pm => pm.resume,
      d.devClass.bind fun c => c.resume⟩ ]

/-- The platform tick rate.  Its value is immaterial to the theorems
below; the watchdog deadline is stated relative to it. -/
def HZ : Nat := 100

/-- The actions of the watchdog handler dpm_drv_timeout (lines 457-470). -/
inductive WdAction
  | printTimeoutMsg
  | printStackHeader
  | showStack
  | bug
deriving DecidableEq

/-- dpm_drv_timeout: print the device, dump the hung task's stack, then
BUG() for a crash dump.  There is no re-arm and no retry. -/
def dpm_drv_timeout : List WdAction :=
  [.printTimeoutMsg, .printStackHeader, .showStack, .bug]

/-- What __device_suspend leaves behind: the returned error, the updated
device entry, the callback invocations, and the watchdog timer state at
the return point. -/
structure DevSuspendResult where
  error : Int
  entry : DevEntry
  invs : List Inv
  timerPendingAtReturn : Bool
  timerDeadline : Nat
deriving DecidableEq

/-- __device_suspend (lines 725-789).  After dpm_wait_for_children
(pure blocking, modelled in the concurrency section below) the watchdog
timer is armed with deadline jiffies + HZ * 12; if the sticky
async_error is set the callbacks are skipped and 0 is returned; else the
class/type/bus suspend callbacks run and on success the status becomes
DPM_OFF.  Every path reaches the End epilogue, which disarms the timer
(del_timer_sync) and then runs complete_all on the device's
completion. -/
def __device_suspend (e : DevEntry) (asyncError : Int) : DevSuspendResult :=
  if asyncError ≠ 0 then
    { error := 0, entry := { e with completionSignaled := true }, invs := [],
      timerPendingAtReturn := false, timerDeadline := HZ * 12 }
  else
    let r := deviceSuspendCbs e.dev
    let e1 := if r.1 = 0 then { e with status := .DPM_OFF } else e
    { error := r.1, entry := { e1 with completionSignaled := true }, invs := r.2,
      timerPendingAtReturn := false, timerDeadline := HZ * 12 }

/-- device_suspend (lines 805-816), sequential dispatch path: re-arm the
completion (INIT_COMPLETION) and run __device_suspend inline.  The
asyncError argument is the global async_error, which stays 0 in a run
with no concurrently dispatched device. -/
def device_suspend (e : DevEntry) (asyncError : Int) : DevSuspendResult :=
  __device_suspend { e with completionSignaled := false } asyncError

/-- What device_resume leaves behind. -/
structure DevResumeResult where
  error : Int
  entry : DevEntry
  invs : List Inv
deriving DecidableEq

/-- device_resume (lines 378-429).  After dpm_wait on the dependency
parent (modelled in the concurrency section) the status is set to
DPM_RESUMING, the bus/type/class resume callbacks run, and on every path
complete_all signals the device's completion. -/
def device_resume (e : DevEntry) : DevResumeResult :=
  let e1 : DevEntry := { e with status := .DPM_RESUMING }
  let r := deviceResumeCbs e.dev
  { error := r.1, entry := { e1 with completionSignaled := true }, invs := r.2 }

/-- dpm_wait (lines 208-215): do nothing for a NULL device; otherwise
block on the device's completion exactly when async is set or the global
pm_async_enabled flag is set and the device is marked async_suspend.
The result records whether wait_for_completion is invoked; it does not
depend on whether the completion is currently signaled. -/
def dpm_wait (dev : Option DevEntry) (async : Bool) (pm_async_enabled : Bool) : Bool :=
  match dev with
  | none => false
  | some d => async || (pm_async_enabled && d.dev.async_suspend)

/-- device_pm_wait_for_dev (lines 988-992): wait for dev on behalf of
subordinate, passing subordinate's async_suspend flag as async. -/
def device_pm_wait_for_dev (subordinate dev : DevEntry) (pm_async_enabled : Bool) : Bool :=
  dpm_wait (some dev) subordinate.dev.async_suspend pm_async_enabled

/-- device_pm_remove (lines 120-130): complete_all on the device's
completion, then delete it from dpm_list.  Returns the signaled entry
and the remaining list. -/
def device_pm_remove (l : List DevEntry) (d : DevEntry) : DevEntry × List DevEntry :=
  ({ d with completionSignaled := true }, l.filter fun x => x.dev.id != d.dev.id)

/-- One structured-only prepare invocation: in device_prepare every tier
is guarded by presence of the pm table and of the prepare slot itself. -/
def prepareTierCall (t : Tier) (slot : Option Int) : Int × List Inv :=
  match slot with
  | some e => (e, [⟨t, .structured⟩])
  | none => (0, [])

/-- device_prepare (lines 870-901): bus, then type, then class prepare
callbacks (structured only, each guarded by a non-NULL prepare slot),
jumping to End at the first nonzero result. -/
def device_prepare (d : Dev) : Int × List Inv :=
  let bus := prepareTierCall .tBus (d.bus.bind fun b => b.pm.bind fun pm => pm.prepare)
  if bus.1 ≠ 0 then bus
  else
    let typ := prepareTierCall .tType (d.devType.bind fun t => t.pm.bind fun pm => pm.prepare)
    if typ.1 ≠ 0 then (typ.1, bus.2 ++ typ.2)
    else
      let cls := prepareTierCall .tClass (d.devClass.bind fun c => c.pm.bind fun pm => pm.prepare)
      (cls.1, bus.2 ++ typ.2 ++ cls.2)

/-- device_complete (lines 532-552): class, then type, then bus complete
callbacks (structured only, void results, no error propagation). -/
def device_complete (d : Dev) : List Inv :=
  (match d.devClass.bind fun c => c.pm.bind fun pm => pm.complete with
    | some _ => [Inv.mk .tClass .structured]
    | none => [])
  ++ (match d.devType.bind fun t => t.pm.bind fun pm => pm.complete with
    | some _ => [Inv.mk .tType .structured]
    | none => [])
  ++ (match d.bus.bind fun b => b.pm.bind fun pm => pm.complete with
    | some _ => [Inv.mk .tBus .structured]
    | none => [])

/-- device_suspend_noirq (lines 636-661): class, then type, then bus
suspend_noirq callbacks, structured tables only, stopping at the first
nonzero result. -/
def device_suspend_noirq (d : Dev) : Int × List Inv :=
  let cls :=
    match d.devClass with
    | none => (0, [])
    | some c =>
      match c.pm with
      | some pm => dpm_run_callback .tClass pm.suspend_noirq
      | none => (0, [])
  if cls.1 ≠ 0 then cls
  else
    let typ :=
      match d.devType with
      | none => (0, [])
      | some t =>
        match t.pm with
        | some pm => dpm_run_callback .tType pm.suspend_noirq
        | none => (0, [])
    if typ.1 ≠ 0 then (typ.1, cls.2 ++ typ.2)
    else
      let bus :=
        match d.bus with
        | none => (0, [])
        | some b =>
          match b.pm with
          | some pm => dpm_run_callback .tBus pm.suspend_noirq
          | none => (0, [])
      (bus.1, cls.2 ++ typ.2 ++ bus.2)

/-- device_resume_noirq (lines 311-341): bus, then type, then class
resume_noirq callbacks, structured tables only, stopping at the first
nonzero result. -/
def device_resume_noirq (d : Dev) : Int × List Inv :=
  let bus :=
    match d.bus with
    | none => (0, [])
    | some b =>
      match b.pm with
      | some pm => dpm_run_callback .tBus pm.resume_noirq
      | none => (0, [])
  if bus.1 ≠ 0 then bus
  else
    let typ :=
      match d.devType with
      | none => (0, [])
      | some t =>
        match t.pm with
        | some pm => dpm_run_callback .tType pm.resume_noirq
        | none => (0, [])
    if typ.1 ≠ 0 then (typ.1, bus.2 ++ typ.2)
    else
      let cls :=
        match d.devClass with
        | none => (0, [])
        | some c =>
          match c.pm with
          | some pm => dpm_run_callback .tClass pm.resume_noirq
          | none => (0, [])
      (cls.1, bus.2 ++ typ.2 ++ cls.2)

/-- The outcome of one dpm_prepare iteration for a device (lines
924-931): if pm_runtime_barrier returned nonzero and the device may
wake up, the error is -EBUSY and device_prepare is not called;
otherwise the error is device_prepare's. -/
def prepOutcome (d : Dev) : Int :=
  if d.runtime_barrier && d.may_wakeup then -EBUSY else (device_prepare d).1

/-- The dpm_prepare walk (lines 917-951).  The head of dpm_list is
popped; its status becomes DPM_PREPARING, the prepare outcome is
computed, and then: on -EAGAIN the status is reset to DPM_ON, the error
is cleared and the loop continues with the device still at the head of
dpm_list (it is only moved to the done list on success); on any other
nonzero error the status is reset to DPM_ON and the walk stops with that
error; on success the status becomes DPM_SUSPENDING and the device moves
to the tail of the done list.  The final list is the done list spliced
in front of what is left of dpm_list.  The fuel argument bounds the
number of iterations; `none` means the walk had not finished within that
many iterations. -/
def dpmPrepareLoop : Nat → List DevEntry → List DevEntry → Option (Int × List DevEntry)
  | _, [], acc => some (0, acc)
  | 0, _ :: _, _ => none
  | fuel + 1, d :: rest, acc =>
    let e := prepOutcome d.dev
    if e ≠ 0 then
      let d1 : DevEntry := { d with status := .DPM_ON }
      if e = -EAGAIN then dpmPrepareLoop fuel (d1 :: rest) acc
      else some (e, acc ++ d1 :: rest)
    else dpmPrepareLoop fuel rest (acc ++ [{ d with status := .DPM_SUSPENDING }])

/-- dpm_prepare (lines 909-955). -/
def dpm_prepare (fuel : Nat) (l : List DevEntry) : Option (Int × List DevEntry) :=
  dpmPrepareLoop fuel l []

/-- The dpm_suspend walk (lines 832-851) over the reversed list: the
tail of dpm_list is popped and suspended; on failure the walk stops with
the error and the failing device stays in dpm_list with its status
unchanged; on success the device moves to the head of the done list.
The final list is what is left of dpm_list followed by the done list
(list_splice at dpm_list.prev). -/
def dpmSuspendAux : List DevEntry → List DevEntry → Int × List DevEntry
  | [], acc => (0, acc)
  | d :: rest, acc =>
    let r := device_suspend d 0
    if r.error ≠ 0 then (r.error, (r.entry :: rest).reverse ++ acc)
    else dpmSuspendAux rest (r.entry :: acc)

/-- dpm_suspend (lines 822-860), for a run in which every device is
dispatched synchronously (async_error stays 0). -/
def dpm_suspend (l : List DevEntry) : Int × List DevEntry :=
  dpmSuspendAux l.reverse []

/-- dpm_suspend_start (lines 964-974): dpm_prepare, then dpm_suspend
only if the prepare phase returned 0. -/
def dpm_suspend_start (fuel : Nat) (l : List DevEntry) : Option (Int × List DevEntry) :=
  match dpm_prepare fuel l with
  | none => none
  | some (e, l1) => if e = 0 then some (dpm_suspend l1) else some (e, l1)

/-- The first loop of dpm_resume (lines 489-498): re-arm the completion
(INIT_COMPLETION) of every device whose status is at least DPM_OFF. -/
def dpmResumeRearm (e : DevEntry) : DevEntry :=
  if DpmState.DPM_OFF.code ≤ e.status.code then { e with completionSignaled := false } else e

/-- The body of dpm_resume's main loop for one device (lines 500-519),
sequential dispatch: a device whose status is at least DPM_OFF gets
device_resume; a device at DPM_SUSPENDING only has its status set to
DPM_RESUMING, with no callbacks; any other device is left alone.  The
second component lists the resume callbacks invoked for the device. -/
def dpmResumeStep (e : DevEntry) : DevEntry × List Inv :=
  if DpmState.DPM_OFF.code ≤ e.status.code then
    let r := device_resume e
    (r.entry, r.invs)
  else if e.status = .DPM_SUSPENDING then ({ e with status := .DPM_RESUMING }, [])
  else (e, [])

/-- The dpm_resume walk: pop the head, process it, append to the done
list; the done list is spliced back at the end. -/
def dpmResumeAux : List DevEntry → List DevEntry → List DevEntry
  | [], acc => acc
  | d :: rest, acc => dpmResumeAux rest (acc ++ [(dpmResumeStep d).1])

/-- dpm_resume (lines 479-525), sequential dispatch (no device passes
is_async). -/
def dpm_resume (l : List DevEntry) : List DevEntry :=
  dpmResumeAux (l.map dpmResumeRearm) []

/-- The body of dpm_complete's loop for one device (lines 568-584): a
device whose status is above DPM_ON is reset to DPM_ON and its complete
callbacks run; any other device is left alone. -/
def dpmCompleteStep (e : DevEntry) : DevEntry × List Inv :=
  if DpmState.DPM_ON.code < e.status.code then
    ({ e with status := .DPM_ON }, device_complete e.dev)
  else (e, [])

/-- The dpm_complete walk over the reversed list: the tail of dpm_list
is popped, processed, and moved to the head of the done list. -/
def dpmCompleteAux : List DevEntry → List DevEntry → List DevEntry
  | [], acc => acc
  | d :: rest, acc => dpmCompleteAux rest ((dpmCompleteStep d).1 :: acc)

/-- dpm_complete (lines 561-587). -/
def dpm_complete (l : List DevEntry) : List DevEntry :=
  dpmCompleteAux l.reverse []

/-- Abstract events of a phase driver, for checking the registry-lock
discipline: acquiring / releasing dpm_list_mtx, invoking a device
callback, and blocking on a completion. -/
inductive PmEv
  | lock
  | unlock
  | cb
  | waitc
deriving DecidableEq

/-- One callback event per invocation. -/
def cbEvs (invs : List Inv) : List PmEv :=
  invs.map fun _ => .cb

/-- Run the lock-discipline check over a trace: the first component is
true when no callback or completion-wait event occurs while the lock is
held; the second is the lock state after the trace. -/
def discipline : Bool → List PmEv → Bool × Bool
  | held, [] => (true, held)
  | _, .lock :: rest => discipline true rest
  | _, .unlock :: rest => discipline false rest
  | held, .cb :: rest =>
    let r := discipline held rest
    ((!held) && r.1, r.2)
  | held, .waitc :: rest =>
    let r := discipline held rest
    ((!held) && r.1, r.2)

/-- A trace respects the lock discipline when, started with the lock
free, no callback or completion wait happens under the lock. -/
def disciplineOK (evs : List PmEv) : Bool :=
  (discipline false evs).1

/-- The events of the dpm_suspend_noirq walk (lines 678-685): the
devices' suspend_noirq callbacks run in reverse list order, stopping at
the first error, all between one mutex_lock and one mutex_unlock.  The
second component is the error the walk stops with. -/
def suspendNoirqEvs : List DevEntry → List PmEv × Int
  | [] => ([], 0)
  | d :: rest =>
    let r := device_suspend_noirq d.dev
    if r.1 ≠ 0 then (cbEvs r.2, r.1)
    else
      let t := suspendNoirqEvs rest
      (cbEvs r.2 ++ t.1, t.2)

/-- The events of the dpm_resume_noirq body (lines 355-366): the
resume_noirq callbacks of every device with status above DPM_OFF run in
forward order, continuing past errors. -/
def resumeNoirqEvs : List DevEntry → List PmEv
  | [] => []
  | d :: rest =>
    (if DpmState.DPM_OFF.code < d.status.code
      then cbEvs (device_resume_noirq d.dev).2 else [])
    ++ resumeNoirqEvs rest

/-- The event trace of dpm_resume_noirq (lines 350-369): the whole walk
sits between mutex_lock(&dpm_list_mtx) and mutex_unlock. -/
def dpm_resume_noirq_trace (l : List DevEntry) : List PmEv :=
  [.lock] ++ resumeNoirqEvs l ++ [.unlock]

/-- The event trace of dpm_suspend_noirq (lines 670-692): the whole walk
sits between mutex_lock(&dpm_list_mtx) and mutex_unlock; on error the
full dpm_resume_noirq runs afterwards as rollback. -/
def dpm_suspend_noirq_trace (l : List DevEntry) : List PmEv :=
  let t := suspendNoirqEvs l.reverse
  [.lock] ++ t.1 ++ [.unlock] ++ (if t.2 ≠ 0 then dpm_resume_noirq_trace l else [])

/-- The events of the dpm_suspend walk (lines 832-851): for each device
popped from the tail, the lock is released, the children's completions
are awaited and the suspend callbacks run, then the lock is re-taken;
the walk stops at the first error. -/
def suspendEvs : List DevEntry → List PmEv
  | [] => []
  | d :: rest =>
    let r := device_suspend d 0
    [.unlock, .waitc] ++ cbEvs r.invs ++ [.lock]
      ++ (if r.error ≠ 0 then [] else suspendEvs rest)

/-- The event trace of dpm_suspend (lines 822-860). -/
def dpm_suspend_trace (l : List DevEntry) : List PmEv :=
  [.lock] ++ suspendEvs l.reverse ++ [.unlock]

/-- The events of the dpm_resume main loop (lines 500-520): for each
device with status at least DPM_OFF, the lock is released, the parent's
completion is awaited and the resume callbacks run, then the lock is
re-taken; other devices are handled entirely under the lock with no
callback. -/
def resumeEvs : List DevEntry → List PmEv
  | [] => []
  | d :: rest =>
    (if DpmState.DPM_OFF.code ≤ d.status.code
      then [.unlock, .waitc] ++ cbEvs (deviceResumeCbs d.dev).2 ++ [.lock] else [])
    ++ resumeEvs rest

/-- The event trace of dpm_resume (lines 479-525). -/
def dpm_resume_trace (l : List DevEntry) : List PmEv :=
  [.lock] ++ resumeEvs l ++ [.unlock]

/-- The events of the dpm_prepare walk (lines 917-951): for each device
the lock is released around the prepare callbacks (none run when the
wakeup test short-circuits), then re-taken; -EAGAIN retries the same
device, other errors stop the walk. -/
def prepareEvs : Nat → List DevEntry → List PmEv
  | _, [] => []
  | 0, _ :: _ => []
  | fuel + 1, d :: rest =>
    let e := prepOutcome d.dev
    let evs := [PmEv.unlock]
      ++ cbEvs (if d.dev.runtime_barrier && d.dev.may_wakeup then [] else (device_prepare d.dev).2)
      ++ [PmEv.lock]
    if e ≠ 0 then
      if e = -EAGAIN then evs ++ prepareEvs fuel ({ d with status := .DPM_ON } :: rest)
      else evs
    else evs ++ prepareEvs fuel rest

/-- The event trace of dpm_prepare (lines 909-955). -/
def dpm_prepare_trace (fuel : Nat) (l : List DevEntry) : List PmEv :=
  [.lock] ++ prepareEvs fuel l ++ [.unlock]

/-- The events of the dpm_complete walk (lines 568-584): for each device
with status above DPM_ON the lock is released around the complete
callbacks, then re-taken. -/
def completeEvs : List DevEntry → List PmEv
  | [] => []
  | d :: rest =>
    (if DpmState.DPM_ON.code < d.status.code
      then [.unlock] ++ cbEvs (device_complete d.dev) ++ [.lock] else [])
    ++ completeEvs rest

/-- The event trace of dpm_complete (lines 561-587). -/
def dpm_complete_trace (l : List DevEntry) : List PmEv :=
  [.lock] ++ completeEvs l.reverse ++ [.unlock]

/-- Whether a trace contains a callback event. -/
def hasCb (evs : List PmEv) : Bool :=
  evs.any fun ev => ev == .cb

/-- The joint state of a dependency parent and its only child while both
run one phase's per-device body on independent concurrent tasks.  A pc
counts the steps of the body the task has completed. -/
structure TwoDevState where
  parentPc : Nat
  childPc : Nat
  parentStatus : DpmState
  childStatus : DpmState
deriving DecidableEq

/-- One interleaving step of the suspend phase for a parent/child pair,
both dispatched asynchronously after a successful prepare, both
callbacks succeeding.  The steps of __device_suspend are
(0) dpm_wait_for_children — for the parent, dpm_wait(child, true),
enabled only once the child has run complete_all (line 731);
(1) the suspend callbacks (lines 746-775);
(2) status := DPM_OFF (line 778);
(3) complete_all (line 786).
The child has no children, so its step 0 blocks on nothing. -/
inductive SuspStep : TwoDevState → TwoDevState → Prop
  | childWait (s : TwoDevState) : s.childPc = 0 → SuspStep s { s with childPc := 1 }
  | childCb (s : TwoDevState) : s.childPc = 1 → SuspStep s { s with childPc := 2 }
  | childSetOff (s : TwoDevState) : s.childPc = 2 →
      SuspStep s { s with childPc := 3, childStatus := .DPM_OFF }
  | childSignal (s : TwoDevState) : s.childPc = 3 → SuspStep s { s with childPc := 4 }
  | parentWait (s : TwoDevState) : s.parentPc = 0 → s.childPc = 4 →
      SuspStep s { s with parentPc := 1 }
  | parentCb (s : TwoDevState) : s.parentPc = 1 → SuspStep s { s with parentPc := 2 }
  | parentSetOff (s : TwoDevState) : s.parentPc = 2 →
      SuspStep s { s with parentPc := 3, parentStatus := .DPM_OFF }
  | parentSignal (s : TwoDevState) : s.parentPc = 3 → SuspStep s { s with parentPc := 4 }

/-- Both devices enter the suspend phase at DPM_SUSPENDING (set by a
successful prepare), with both completions re-armed by device_suspend. -/
def suspInit : TwoDevState :=
  ⟨0, 0, .DPM_SUSPENDING, .DPM_SUSPENDING⟩

/-- The states the concurrent suspend phase can reach. -/
def SuspReachable (s : TwoDevState) : Prop :=
  Relation.ReflTransGen SuspStep suspInit s

/-- One interleaving step of the resume phase for the same pair, both
dispatched asynchronously, both completions re-armed by dpm_resume's
first loop.  The steps of device_resume are
(0) dpm_wait on the dependency parent — taken only when the parent's
status is at least DPM_OFF or equals DPM_RESUMING (lines 385-388), and
with async set it blocks until the parent has run complete_all;
(1) status := DPM_RESUMING (line 391);
(2) the resume callbacks (lines 393-422);
(3) complete_all (line 425).
The parent has no parent of its own, so its step 0 blocks on nothing. -/
inductive ResStep : TwoDevState → TwoDevState → Prop
  | parentWait (s : TwoDevState) : s.parentPc = 0 → ResStep s { s with parentPc := 1 }
  | parentSetResuming (s : TwoDevState) : s.parentPc = 1 →
      ResStep s { s with parentPc := 2, parentStatus := .DPM_RESUMING }
  | parentCb (s : TwoDevState) : s.parentPc = 2 → ResStep s { s with parentPc := 3 }
  | parentSignal (s : TwoDevState) : s.parentPc = 3 → ResStep s { s with parentPc := 4 }
  | childWait (s : TwoDevState) : s.childPc = 0 →
      (¬(DpmState.DPM_OFF.code ≤ s.parentStatus.code ∨ s.parentStatus = .DPM_RESUMING)
        ∨ s.parentPc = 4) →
      ResStep s { s with childPc := 1 }
  | childSetResuming (s : TwoDevState) : s.childPc = 1 →
      ResStep s { s with childPc := 2, childStatus := .DPM_RESUMING }
  | childCb (s : TwoDevState) : s.childPc = 2 → ResStep s { s with childPc := 3 }
  | childSignal (s : TwoDevState) : s.childPc = 3 → ResStep s { s with childPc := 4 }

/-- Both devices enter the resume phase suspended (DPM_OFF). -/
def resInit : TwoDevState :=
  ⟨0, 0, .DPM_OFF, .DPM_OFF⟩

/-- The states the concurrent resume phase can reach. -/
def ResReachable (s : TwoDevState) : Prop :=
  Relation.ReflTransGen ResStep resInit s

/-- A device whose suspend and resume callbacks succeed. -/
def devOk : Dev :=
  { id := 1, bus := some { pm := some { suspend := some 0, resume := some 0 } } }

/-- A device whose bus suspend callback fails with -5 (-EIO). -/
def devFailSuspend : Dev :=
  { id := 2, bus := some { pm := some { suspend := some (-5) } } }

/-- A device whose bus prepare callback reports -EAGAIN. -/
def devEagain : Dev :=
  { id := 3, bus := some { pm := some { prepare := some (-EAGAIN) } } }

/-- A device that requested a hardware wakeup during the transition:
pm_runtime_barrier returns nonzero and the device may wake up. -/
def devWake : Dev :=
  { id := 4, runtime_barrier := true, may_wakeup := true }

/-- A plain device with no callbacks at all. -/
def devPlain : Dev :=
  { id := 5 }

/-- A device with suspend_noirq and resume_noirq callbacks (for the
lock-discipline counterexample). -/
def devNoirq : Dev :=
  { id := 6, bus := some { pm := some { suspend_noirq := some 0, resume_noirq := some 0 } } }

/-- Fresh registry entries for the example devices (status DPM_ON,
completion signaled, as device_pm_init leaves them). -/
def entOk : DevEntry := { dev := devOk }

def entFailSuspend : DevEntry := { dev := devFailSuspend }

def entEagain : DevEntry := { dev := devEagain }

def entWake : DevEntry := { dev := devWake }

def entPlain : DevEntry := { dev := devPlain }

def entNoirq : DevEntry := { dev := devNoirq }

/-- The noirq example device as it stands after a completed
suspend_noirq phase (status DPM_OFF_IRQ). -/
def entNoirqOff : DevEntry := { dev := devNoirq, status := .DPM_OFF_IRQ }

/-- The inductive invariant of the concurrent resume phase: the parent's
status is always DPM_OFF or DPM_RESUMING; once the parent has passed its
status-setting step its status is DPM_RESUMING; and the child passes its
wait step only after the parent has signaled. -/
def ResInv (s : TwoDevState) : Prop :=
  (s.parentStatus = .DPM_OFF ∨ s.parentStatus = .DPM_RESUMING)
  ∧ (2 ≤ s.parentPc → s.parentStatus = .DPM_RESUMING)
  ∧ (1 ≤ s.childPc → s.parentPc = 4)

/-! ### Proofs -/

theorem runTiers_three (s1 s2 s3 : TierSlot) :
    runTiers [s1, s2, s3] =
      (if s1.run.1 ≠ 0 then s1.run
      else if s2.run.1 ≠ 0 then (s2.run.1, s1.run.2 ++ s2.run.2)
      else ((s3.run).1, s1.run.2 ++ s2.run.2 ++ (s3.run).2)) := by
  by_cases h1 : s1.run.1 = 0 <;> by_cases h2 : s2.run.1 = 0 <;>
    by_cases h3 : s3.run.1 = 0 <;>
      simp [runTiers, h1, h2, h3, List.append_assoc]

theorem classSuspendTier_run (d : Dev) :
    classSuspendTier d =
      TierSlot.run ⟨.tClass, d.devClass.bind fun c => c.pm.map fun pm => pm.suspend,
        d.devClass.bind fun c => c.suspend⟩ := by
  rcases d with ⟨i, dc, dt, db, b, w, a⟩
  cases dc with
  | none => rfl
  | some c =>
    cases hc : c.pm with
    | none => cases c.suspend <;> simp [classSuspendTier, TierSlot.run, hc]
    | some pm => simp [classSuspendTier, TierSlot.run, hc]

theorem typeSuspendTier_run (d : Dev) :
    typeSuspendTier d =
      TierSlot.run ⟨.tType, d.devType.bind fun t => t.pm.map fun pm => pm.suspend, none⟩ := by
  rcases d with ⟨i, dc, dt, db, b, w, a⟩
  cases dt with
  | none => rfl
  | some t =>
    cases ht : t.pm with
    | none => simp [typeSuspendTier, TierSlot.run, ht]
    | some pm => simp [typeSuspendTier, TierSlot.run, ht]

theorem busSuspendTier_run (d : Dev) :
    busSuspendTier d =
      TierSlot.run ⟨.tBus, d.bus.bind fun b => b.pm.map fun pm => pm.suspend,
        d.bus.bind fun b => b.suspend⟩ := by
  rcases d with ⟨i, dc, dt, db, b, w, a⟩
  cases db with
  | none => rfl
  | some bu =>
    cases hb : bu.pm with
    | none => cases bu.suspend <;> simp [busSuspendTier, TierSlot.run, hb]
    | some pm => simp [busSuspendTier, TierSlot.run, hb]

theorem busResumeTier_run (d : Dev) :
    busResumeTier d =
      TierSlot.run ⟨.tBus, d.bus.bind fun b => b.pm.map fun pm => pm.resume,
        d.bus.bind fun b => b.resume⟩ := by
  rcases d with ⟨i, dc, dt, db, b, w, a⟩
  cases db with
  | none => rfl
  | some bu =>
    cases hb : bu.pm with
    | none => cases bu.resume <;> simp [busResumeTier, TierSlot.run, hb]
    | some pm => simp [busResumeTier, TierSlot.run, hb]

theorem typeResumeTier_run (d : Dev) :
    typeResumeTier d =
      TierSlot.run ⟨.tType, d.devType.bind fun t => t.pm.map fun pm => pm.resume, none⟩ := by
  rcases d with ⟨i, dc, dt, db, b, w, a⟩
  cases dt with
  | none => rfl
  | some t =>
    cases ht : t.pm with
    | none => simp [typeResumeTier, TierSlot.run, ht]
    | some pm => simp [typeResumeTier, TierSlot.run, ht]

theorem classResumeTier_run (d : Dev) :
    classResumeTier d =
      TierSlot.run ⟨.tClass, d.devClass.bind fun c => c.pm.map fun pm => pm.resume,
        d.devClass.bind fun c => c.resume⟩ := by
  rcases d with ⟨i, dc, dt, db, b, w, a⟩
  cases dc with
  | none => rfl
  | some c =>
    cases hc : c.pm with
    | none => cases c.resume <;> simp [classResumeTier, TierSlot.run, hc]
    | some pm => simp [classResumeTier, TierSlot.run, hc]

/-- C6: the per-device suspend body runs the tiers in the order class,
type, bus, and the per-device resume body in the order bus, type, class;
at each tier the structured pm callback is used when a structured pm
table is present and otherwise the legacy function (mutually exclusive
per tier, the type tier having no legacy form), and evaluation stops at
the first tier whose callback returns a nonzero result — both bodies
coincide with the spec-level fixed-order tier dispatch. -/
theorem c6_tier_dispatch_order (d : Dev) :
    deviceSuspendCbs d = runTiers (suspendSlots d)
    ∧ deviceResumeCbs d = runTiers (resumeSlots d) := by
  constructor
  · rw [suspendSlots, runTiers_three, ← classSuspendTier_run, ← typeSuspendTier_run,
      ← busSuspendTier_run]
    rfl
  · rw [resumeSlots, runTiers_three, ← busResumeTier_run, ← typeResumeTier_run,
      ← classResumeTier_run]
    rfl

/-- C7: the device's completion is signaled unconditionally when the
per-device suspend or resume body returns — on the success path and on
every error path — and also when the device is removed from the
registry. -/
theorem c7_completion_always_signaled (e : DevEntry) (ae : Int) (l : List DevEntry)
    (d : DevEntry) :
    (__device_suspend e ae).entry.completionSignaled = true
    ∧ (device_resume e).entry.completionSignaled = true
    ∧ (device_pm_remove l d).1.completionSignaled = true := by
  refine ⟨?_, rfl, rfl⟩
  unfold __device_suspend
  split
  · rfl
  · rfl

/-- C8: the watchdog armed by the per-device suspend body before the
callbacks run has deadline HZ * 12 and is disarmed on every exit path
before __device_suspend returns; when it fires, dpm_drv_timeout dumps
the hung task's stack and its last action is BUG — there is no retry. -/
theorem c8_watchdog_discipline (e : DevEntry) (ae : Int) :
    (__device_suspend e ae).timerPendingAtReturn = false
    ∧ (__device_suspend e ae).timerDeadline = HZ * 12
    ∧ WdAction.showStack ∈ dpm_drv_timeout
    ∧ dpm_drv_timeout.getLast? = some WdAction.bug := by
  refine ⟨?_, ?_, by decide, by decide⟩ <;>
    (unfold __device_suspend; split <;> rfl)

/-- C9: dpm_wait blocks on the device's completion exactly when the
async flag is set, or the global async-enabled flag is set and the
device is marked async_suspend; otherwise it returns without waiting,
independently of the completion's state, so with async execution fully
disabled the dependency wait (device_pm_wait_for_dev included) is a
no-op. -/
theorem c9_dpm_wait_condition (dev : Option DevEntry) (async en : Bool) :
    (dpm_wait dev async en = true ↔
      ∃ d, dev = some d ∧ (async = true ∨ (en = true ∧ d.dev.async_suspend = true)))
    ∧ (∀ d : DevEntry,
        dpm_wait (some d) async en
          = dpm_wait (some { d with completionSignaled := false }) async en)
    ∧ (∀ sub d : DevEntry,
        device_pm_wait_for_dev sub d en
          = (sub.dev.async_suspend || (en && d.dev.async_suspend)))
    ∧ (async = false → en = false → dpm_wait dev async en = false) := by
  refine ⟨?_, fun d => rfl, fun sub d => rfl, ?_⟩
  · cases dev with
    | none => simp [dpm_wait]
    | some d =>
      simp only [dpm_wait, Bool.or_eq_true, Bool.and_eq_true]
      constructor
      · intro h
        exact ⟨d, rfl, h⟩
      · rintro ⟨d1, hd1, h⟩
        cases hd1
        exact h
  · intro ha he
    cases dev with
    | none => rfl
    | some d => simp [dpm_wait, ha, he]

/-- Closed witness for c9_dpm_wait_condition: with async execution fully
disabled, dpm_wait does not block on entOk. -/
theorem c9_dpm_wait_condition_witness :
    dpm_wait (some entOk) false false = false :=
  (c9_dpm_wait_condition (some entOk) false false).2.2.2 rfl rfl

/-- C10: a device whose status at resume time is DPM_SUSPENDING gets no
resume callbacks — dpm_resume merely sets it to DPM_RESUMING — yet
dpm_complete still runs its complete callbacks and resets it to DPM_ON;
dpm_resume runs callbacks only for status at least DPM_OFF, and
dpm_complete processes exactly the devices with status above DPM_ON. -/
theorem c10_suspending_skips_resume_not_complete (e : DevEntry) :
    (e.status = .DPM_SUSPENDING →
      dpmResumeStep e = ({ e with status := .DPM_RESUMING }, [])
      ∧ dpmCompleteStep { e with status := .DPM_RESUMING }
          = ({ e with status := .DPM_ON }, device_complete e.dev))
    ∧ ((dpmResumeStep e).2 ≠ [] → DpmState.DPM_OFF.code ≤ e.status.code)
    ∧ (DpmState.DPM_ON.code < e.status.code →
        dpmCompleteStep e = ({ e with status := .DPM_ON }, device_complete e.dev))
    ∧ (e.status.code ≤ DpmState.DPM_ON.code → dpmCompleteStep e = (e, [])) := by
  refine ⟨?_, ?_, ?_, ?_⟩
  · intro h
    constructor
    · simp [dpmResumeStep, h, DpmState.code]
    · simp [dpmCompleteStep, DpmState.code]
  · intro h
    by_cases hc : DpmState.DPM_OFF.code ≤ e.status.code
    · exact hc
    · exfalso
      apply h
      by_cases hs : e.status = .DPM_SUSPENDING
      · simp [dpmResumeStep, hs, DpmState.code]
      · simp [dpmResumeStep, hc, hs]
  · intro h
    simp [dpmCompleteStep, h]
  · intro h
    have : ¬ DpmState.DPM_ON.code < e.status.code := by omega
    simp [dpmCompleteStep, this]

/-- Closed witness for c10_suspending_skips_resume_not_complete at a
concrete prepared-but-never-suspended device. -/
theorem c10_suspending_skips_resume_not_complete_witness :
    dpmResumeStep { dev := devOk, status := .DPM_SUSPENDING }
        = ({ dev := devOk, status := .DPM_RESUMING }, [])
    ∧ dpmCompleteStep { dev := devOk, status := .DPM_RESUMING }
        = ({ dev := devOk, status := .DPM_ON }, device_complete devOk) :=
  (c10_suspending_skips_resume_not_complete { dev := devOk, status := .DPM_SUSPENDING }).1 rfl

theorem dpmPrepareLoop_clean (l : List DevEntry) :
    ∀ (fuel : Nat) (acc : List DevEntry),
      (∀ x ∈ l, prepOutcome x.dev = 0) → l.length ≤ fuel →
      dpmPrepareLoop fuel l acc
        = some (0, acc ++ l.map fun x => { x with status := .DPM_SUSPENDING }) := by
  induction l with
  | nil =>
    intro fuel acc _ _
    simp [dpmPrepareLoop]
  | cons d rest ih =>
    intro fuel acc h hf
    cases fuel with
    | zero => simp at hf
    | succ f =>
      have hd : prepOutcome d.dev = 0 := h d (by simp)
      have hlen : rest.length ≤ f := by
        simp only [List.length_cons] at hf
        omega
      have hrest : ∀ x ∈ rest, prepOutcome x.dev = 0 := fun x hx => h x (by simp [hx])
      have h0 : ¬((0 : Int) ≠ 0) := by simp
      have step := ih f (acc ++ [{ d with status := DpmState.DPM_SUSPENDING }]) hrest hlen
      simp only [dpmPrepareLoop, hd]
      rw [if_neg h0, step]
      simp

theorem device_suspend_ok (d : DevEntry) (hd : (deviceSuspendCbs d.dev).1 = 0) :
    device_suspend d 0
      = { error := 0, entry := { d with status := .DPM_OFF, completionSignaled := true },
          invs := (deviceSuspendCbs d.dev).2, timerPendingAtReturn := false,
          timerDeadline := HZ * 12 } := by
  simp [device_suspend, __device_suspend, hd]

theorem device_suspend_fail (d : DevEntry) (hd : (deviceSuspendCbs d.dev).1 ≠ 0) :
    device_suspend d 0
      = { error := (deviceSuspendCbs d.dev).1,
          entry := { d with completionSignaled := true },
          invs := (deviceSuspendCbs d.dev).2, timerPendingAtReturn := false,
          timerDeadline := HZ * 12 } := by
  simp [device_suspend, __device_suspend, hd]

theorem dpmSuspendAux_clean (p : List DevEntry) :
    ∀ (q acc : List DevEntry), (∀ x ∈ p, (deviceSuspendCbs x.dev).1 = 0) →
      dpmSuspendAux (p ++ q) acc
        = dpmSuspendAux q
            ((p.map fun x => { x with status := .DPM_OFF, completionSignaled := true }).reverse
              ++ acc) := by
  induction p with
  | nil =>
    intro q acc _
    simp
  | cons d rest ih =>
    intro q acc h
    have hd : (deviceSuspendCbs d.dev).1 = 0 := h d (by simp)
    have hrest : ∀ x ∈ rest, (deviceSuspendCbs x.dev).1 = 0 := fun x hx => h x (by simp [hx])
    have h0 : ¬((0 : Int) ≠ 0) := by simp
    have step := ih q
      (({ d with status := DpmState.DPM_OFF, completionSignaled := true } : DevEntry) :: acc)
      hrest
    simp only [List.cons_append, List.append_eq, dpmSuspendAux, device_suspend_ok d hd]
    rw [if_neg h0, step]
    congr 1
    simp

theorem dpmSuspendAux_fail_head (d : DevEntry) (rest acc : List DevEntry)
    (hd : (deviceSuspendCbs d.dev).1 ≠ 0) :
    dpmSuspendAux (d :: rest) acc
      = ((deviceSuspendCbs d.dev).1,
          rest.reverse ++ { d with completionSignaled := true } :: acc) := by
  simp only [dpmSuspendAux, device_suspend_fail d hd]
  rw [if_pos hd]
  simp

theorem dpm_suspend_start_of_prepare (fuel : Nat) (l l1 : List DevEntry) (e : Int)
    (h : dpm_prepare fuel l = some (e, l1)) :
    dpm_suspend_start fuel l = if e = 0 then some (dpm_suspend l1) else some (e, l1) := by
  unfold dpm_suspend_start
  rw [h]

/-- Counterexample to C1: with dpm_list = [entFailSuspend, entOk] the
suspend walk (tail first) suspends entOk, then entFailSuspend's callback
fails with -5; dpm_suspend_start returns -5, yet the already-suspended
entOk is left at DPM_OFF — it is not rolled back to DPM_ON, no
resume-phase logic runs. -/
theorem c1_counterexample :
    (dpm_suspend_start 3 [entFailSuspend, entOk]).map
        (fun r => (r.1, r.2.map DevEntry.status))
      = some (-5, [.DPM_SUSPENDING, .DPM_OFF])
    ∧ DpmState.DPM_OFF ≠ DpmState.DPM_ON := by
  exact ⟨by decide, by decide⟩

/-- C1 amended: if device d's suspend callback fails while every device
after it in list order (processed before it by the reverse walk)
suspends cleanly, dpm_suspend_start returns d's error, but performs no
rollback: the already-suspended devices stay at DPM_OFF, and the devices
not yet reached keep the DPM_SUSPENDING status prepare gave them — they
are never suspended.  Resuming is left to the caller. -/
theorem c1_amended_suspend_failure_no_rollback
    (l1 l2 : List DevEntry) (d : DevEntry) (fuel : Nat)
    (hprep : ∀ x ∈ l1 ++ d :: l2, prepOutcome x.dev = 0)
    (hl2 : ∀ x ∈ l2, (deviceSuspendCbs x.dev).1 = 0)
    (hd : (deviceSuspendCbs d.dev).1 ≠ 0)
    (hfuel : (l1 ++ d :: l2).length ≤ fuel) :
    dpm_suspend_start fuel (l1 ++ d :: l2)
      = some ((deviceSuspendCbs d.dev).1,
          (l1.map fun x => { x with status := .DPM_SUSPENDING })
            ++ { d with status := .DPM_SUSPENDING, completionSignaled := true }
              :: l2.map fun x => { x with status := .DPM_OFF, completionSignaled := true }) := by
  have hp : dpm_prepare fuel (l1 ++ d :: l2)
      = some (0, (l1 ++ d :: l2).map fun x => { x with status := .DPM_SUSPENDING }) := by
    have := dpmPrepareLoop_clean (l1 ++ d :: l2) fuel [] hprep hfuel
    simpa [dpm_prepare] using this
  rw [dpm_suspend_start_of_prepare fuel (l1 ++ d :: l2) _ 0 hp,
    if_pos (rfl : (0 : Int) = 0)]
  have hrev : ((l1 ++ d :: l2).map fun x => ({ x with status := .DPM_SUSPENDING } : DevEntry)).reverse
      = ((l2.map fun x => ({ x with status := .DPM_SUSPENDING } : DevEntry)).reverse)
        ++ (({ d with status := .DPM_SUSPENDING } : DevEntry) ::
            (l1.map fun x => ({ x with status := .DPM_SUSPENDING } : DevEntry)).reverse) := by
    simp
  unfold dpm_suspend
  rw [hrev]
  rw [dpmSuspendAux_clean _ _ _ (by
    intro x hx
    rw [List.mem_reverse, List.mem_map] at hx
    obtain ⟨y, hy, hxy⟩ := hx
    rw [← hxy]
    exact hl2 y hy)]
  rw [dpmSuspendAux_fail_head ({ d with status := .DPM_SUSPENDING })
    ((l1.map fun x => ({ x with status := .DPM_SUSPENDING } : DevEntry)).reverse) _ hd]
  simp [List.map_reverse, List.map_map, Function.comp]

/-- Counterexample to C4: a device whose prepare callback keeps
reporting -EAGAIN is not skipped — the walk re-pops the same device and
retries it, so with [entEagain, entPlain] the prepare phase never
finishes (here: not within 50 iterations) and never reaches the
remaining device. -/
theorem c4_counterexample :
    dpm_prepare 50 [entEagain, entPlain] = none := by
  decide

/-- C4 amended: a device whose prepare reports -EAGAIN has its status
set back to DPM_ON and the error cleared, but it is retried — the walk
continues with the same device still at the head of the list, not with
the remaining devices; any other nonzero prepare error aborts the phase
with that error (the device reset to DPM_ON); and dpm_suspend_start
runs dpm_suspend only when dpm_prepare returned 0. -/
theorem c4_amended_eagain_retry_and_gating (fuel : Nat) (d : DevEntry)
    (rest acc l : List DevEntry) :
    (prepOutcome d.dev = -EAGAIN →
      dpmPrepareLoop (fuel + 1) (d :: rest) acc
        = dpmPrepareLoop fuel ({ d with status := .DPM_ON } :: rest) acc)
    ∧ (prepOutcome d.dev ≠ 0 → prepOutcome d.dev ≠ -EAGAIN →
      dpmPrepareLoop (fuel + 1) (d :: rest) acc
        = some (prepOutcome d.dev, acc ++ { d with status := .DPM_ON } :: rest))
    ∧ (∀ r, dpm_prepare fuel l = some r →
      dpm_suspend_start fuel l = if r.1 = 0 then some (dpm_suspend r.2) else some r) := by
  refine ⟨?_, ?_, ?_⟩
  · intro h
    have h1 : ¬(-EAGAIN : Int) = 0 := by decide
    simp only [dpmPrepareLoop, h]
    rw [if_pos h1]
    simp
  · intro h1 h2
    simp only [dpmPrepareLoop]
    rw [if_pos h1, if_neg h2]
  · intro r hr
    obtain ⟨e, l1⟩ := r
    unfold dpm_suspend_start
    rw [hr]

/-- Closed witness for c4_amended_eagain_retry_and_gating: the -EAGAIN
device is re-processed in place, and a prepare failure gates
dpm_suspend off. -/
theorem c4_amended_eagain_retry_and_gating_witness :
    dpmPrepareLoop 1 [entEagain] [] = dpmPrepareLoop 0 [{ entEagain with status := .DPM_ON }] []
    ∧ dpm_suspend_start 2 [entWake] = some (-EBUSY, [{ entWake with status := .DPM_ON }]) := by
  constructor
  · exact (c4_amended_eagain_retry_and_gating 0 entEagain [] [] []).1 (by decide)
  · have h := (c4_amended_eagain_retry_and_gating 2 entEagain [] [] [entWake]).2.2
      (-EBUSY, [{ entWake with status := .DPM_ON }]) (by decide)
    rw [h, if_neg (by decide)]

/-- Counterexample to C5: a device that requested a hardware wakeup
during prepare (-EBUSY) aborts the whole prepare phase — the walk
returns -16 and never prepares the remaining device, instead of
continuing as in the -EAGAIN case. -/
theorem c5_counterexample :
    dpm_prepare 5 [entWake, entPlain]
        = some (-EBUSY, [{ entWake with status := .DPM_ON }, entPlain])
    ∧ dpm_prepare 5 [entWake, entPlain]
        ≠ some (0, [{ entWake with status := .DPM_ON },
            { entPlain with status := .DPM_SUSPENDING }]) := by
  exact ⟨by decide, by decide⟩

/-- C5 amended: a device whose pm_runtime_barrier returns nonzero and
that may wake up yields -EBUSY, which — not being -EAGAIN — aborts the
entire prepare phase with that error; only the device itself is reset to
DPM_ON and the remaining devices are not processed. -/
theorem c5_amended_wakeup_aborts_whole_prepare (fuel : Nat) (d : DevEntry)
    (rest acc : List DevEntry) (hb : d.dev.runtime_barrier = true)
    (hw : d.dev.may_wakeup = true) :
    dpmPrepareLoop (fuel + 1) (d :: rest) acc
      = some (-EBUSY, acc ++ { d with status := .DPM_ON } :: rest) := by
  have he : prepOutcome d.dev = -EBUSY := by simp [prepOutcome, hb, hw]
  have h1 : ¬(-EBUSY : Int) = 0 := by decide
  have h2 : ¬(-EBUSY : Int) = -EAGAIN := by decide
  simp only [dpmPrepareLoop, he]
  rw [if_pos h1, if_neg h2]

/-- Closed witness for c5_amended_wakeup_aborts_whole_prepare at a
concrete wakeup-requesting device followed by an untouched device. -/
theorem c5_amended_wakeup_aborts_whole_prepare_witness :
    dpmPrepareLoop 1 [entWake, entPlain] []
      = some (-EBUSY, [{ entWake with status := .DPM_ON }, entPlain]) :=
  c5_amended_wakeup_aborts_whole_prepare 0 entWake [entPlain] [] rfl rfl

/-- Closed witness for c1_amended_suspend_failure_no_rollback at a
concrete three-device list. -/
theorem c1_amended_suspend_failure_no_rollback_witness :
    dpm_suspend_start 3 [entPlain, entFailSuspend, entOk]
      = some ((deviceSuspendCbs entFailSuspend.dev).1,
          ([entPlain].map fun x => { x with status := .DPM_SUSPENDING })
            ++ { entFailSuspend with status := .DPM_SUSPENDING, completionSignaled := true }
              :: [entOk].map fun x => { x with status := .DPM_OFF, completionSignaled := true }) :=
  c1_amended_suspend_failure_no_rollback [entPlain] [entOk] entFailSuspend 3
    (by decide) (by decide) (by decide) (by decide)

theorem discipline_append (a : List PmEv) :
    ∀ (h : Bool) (b : List PmEv),
      discipline h (a ++ b)
        = ((discipline h a).1 && (discipline (discipline h a).2 b).1,
            (discipline (discipline h a).2 b).2) := by
  induction a with
  | nil =>
    intro h b
    simp [discipline]
  | cons ev rest ih =>
    intro h b
    cases ev <;> simp [discipline, ih, Bool.and_assoc]

theorem discipline_cbEvs (invs : List Inv) :
    discipline false (cbEvs invs) = (true, false) := by
  induction invs with
  | nil => simp [cbEvs, discipline]
  | cons i rest ih => simpa [cbEvs, discipline] using ih

theorem discipline_seg_waitc (invs : List Inv) :
    discipline true ([.unlock, .waitc] ++ cbEvs invs ++ [.lock]) = (true, true) := by
  simp [discipline, discipline_append, discipline_cbEvs]

theorem discipline_seg_plain (invs : List Inv) :
    discipline true ([.unlock] ++ cbEvs invs ++ [.lock]) = (true, true) := by
  simp [discipline, discipline_append, discipline_cbEvs]

theorem discipline_suspendEvs (l : List DevEntry) :
    discipline true (suspendEvs l) = (true, true) := by
  induction l with
  | nil => simp [suspendEvs, discipline]
  | cons d rest ih =>
    by_cases herr : (device_suspend d 0).error ≠ 0 <;>
      simp [suspendEvs, herr, discipline, discipline_append, discipline_cbEvs, ih]

theorem discipline_resumeEvs (l : List DevEntry) :
    discipline true (resumeEvs l) = (true, true) := by
  induction l with
  | nil => simp [resumeEvs, discipline]
  | cons d rest ih =>
    by_cases hs : DpmState.DPM_OFF.code ≤ d.status.code <;>
      simp [resumeEvs, hs, discipline, discipline_append, discipline_cbEvs, ih]

theorem discipline_completeEvs (l : List DevEntry) :
    discipline true (completeEvs l) = (true, true) := by
  induction l with
  | nil => simp [completeEvs, discipline]
  | cons d rest ih =>
    by_cases hs : DpmState.DPM_ON.code < d.status.code <;>
      simp [completeEvs, hs, discipline, discipline_append, discipline_cbEvs, ih]

theorem discipline_prepareEvs (fuel : Nat) :
    ∀ l, discipline true (prepareEvs fuel l) = (true, true) := by
  induction fuel with
  | zero =>
    intro l
    cases l <;> simp [prepareEvs, discipline]
  | succ f ih =>
    intro l
    cases l with
    | nil => simp [prepareEvs, discipline]
    | cons d rest =>
      by_cases h1 : prepOutcome d.dev ≠ 0
      · by_cases h2 : prepOutcome d.dev = -EAGAIN
        · simp [prepareEvs, h1, h2, discipline, discipline_append, discipline_cbEvs, ih]
        · simp [prepareEvs, h1, h2, discipline, discipline_append, discipline_cbEvs]
      · simp [prepareEvs, h1, discipline, discipline_append, discipline_cbEvs, ih]

theorem disciplineOK_wrap (body : List PmEv)
    (hbody : discipline true body = (true, true)) :
    disciplineOK ([.lock] ++ body ++ [.unlock]) = true := by
  simp [disciplineOK, discipline, discipline_append, hbody]

theorem discipline_true_allcb (evs : List PmEv)
    (hall : ∀ ev ∈ evs, ev = PmEv.cb) :
    discipline true evs = (evs.isEmpty, true) := by
  induction evs with
  | nil => simp [discipline]
  | cons ev rest ih =>
    have hev : ev = PmEv.cb := hall ev (by simp)
    subst hev
    have := ih fun x hx => hall x (by simp [hx])
    simp [discipline, this]

theorem suspendNoirqEvs_all_cb (l : List DevEntry) :
    ∀ ev ∈ (suspendNoirqEvs l).1, ev = PmEv.cb := by
  induction l with
  | nil => simp [suspendNoirqEvs]
  | cons d rest ih =>
    intro ev hev
    by_cases h : (device_suspend_noirq d.dev).1 ≠ 0
    · simp [suspendNoirqEvs, h, cbEvs] at hev
      exact hev.2
    · simp [suspendNoirqEvs, h] at hev
      rcases hev with hev | hev
      · simp [cbEvs] at hev
        exact hev.2
      · exact ih ev hev

theorem resumeNoirqEvs_all_cb (l : List DevEntry) :
    ∀ ev ∈ resumeNoirqEvs l, ev = PmEv.cb := by
  induction l with
  | nil => simp [resumeNoirqEvs]
  | cons d rest ih =>
    intro ev hev
    simp only [resumeNoirqEvs, List.mem_append] at hev
    rcases hev with hev | hev
    · by_cases hs : DpmState.DPM_OFF.code < d.status.code
      · simp [hs, cbEvs] at hev
        exact hev.2
      · simp [hs] at hev
    · exact ih ev hev

theorem disciplineOK_noirq_shape (evs tail : List PmEv)
    (hall : ∀ ev ∈ evs, ev = PmEv.cb) :
    disciplineOK ([.lock] ++ evs ++ [.unlock] ++ tail)
      = (evs.isEmpty && (discipline false tail).1) := by
  simp [disciplineOK, discipline, discipline_append, discipline_true_allcb evs hall]

theorem hasCb_append (a b : List PmEv) :
    hasCb (a ++ b) = (hasCb a || hasCb b) := by
  simp [hasCb]

theorem hasCb_allcb (evs : List PmEv) (hall : ∀ ev ∈ evs, ev = PmEv.cb) :
    hasCb evs = !evs.isEmpty := by
  cases evs with
  | nil => simp [hasCb]
  | cons ev rest =>
    have : ev = PmEv.cb := hall ev (by simp)
    subst this
    simp [hasCb]

theorem resume_noirq_trace_violation (l : List DevEntry)
    (h : hasCb (dpm_resume_noirq_trace l) = true) :
    disciplineOK (dpm_resume_noirq_trace l) = false := by
  have hall := resumeNoirqEvs_all_cb l
  have hshape : dpm_resume_noirq_trace l
      = [.lock] ++ resumeNoirqEvs l ++ [.unlock] ++ [] := by
    simp [dpm_resume_noirq_trace]
  have hl : hasCb [PmEv.lock] = false := by decide
  have hu : hasCb [PmEv.unlock] = false := by decide
  have he : hasCb ([] : List PmEv) = false := by decide
  rw [hshape] at h ⊢
  rw [disciplineOK_noirq_shape _ _ hall]
  rw [hasCb_append, hasCb_append, hasCb_append, hl, hu, he,
    hasCb_allcb _ hall] at h
  simp only [Bool.false_or, Bool.or_false, Bool.not_eq_true'] at h
  simp [h, discipline]

theorem suspend_noirq_trace_violation (l : List DevEntry)
    (h : hasCb (dpm_suspend_noirq_trace l) = true) :
    disciplineOK (dpm_suspend_noirq_trace l) = false := by
  have hall := suspendNoirqEvs_all_cb l.reverse
  have hshape : dpm_suspend_noirq_trace l
      = [.lock] ++ (suspendNoirqEvs l.reverse).1 ++ [.unlock]
        ++ (if (suspendNoirqEvs l.reverse).2 ≠ 0 then dpm_resume_noirq_trace l else []) := by
    simp [dpm_suspend_noirq_trace]
  have hl : hasCb [PmEv.lock] = false := by decide
  have hu : hasCb [PmEv.unlock] = false := by decide
  rw [hshape] at h ⊢
  rw [disciplineOK_noirq_shape _ _ hall]
  by_cases hne : (suspendNoirqEvs l.reverse).1.isEmpty = true
  · rw [hasCb_append, hasCb_append, hasCb_append, hl, hu,
      hasCb_allcb _ hall, hne] at h
    simp only [Bool.not_true, Bool.false_or, Bool.or_false] at h
    by_cases hc : (suspendNoirqEvs l.reverse).2 ≠ 0
    · rw [if_pos hc] at h ⊢
      have hv := resume_noirq_trace_violation l h
      simp only [disciplineOK] at hv
      simp [hne, hv]
    · rw [if_neg hc] at h
      simp [hasCb] at h
  · simp only [Bool.not_eq_true] at hne
    simp [hne]

/-- Counterexample to C3: dpm_suspend_noirq invokes the device
suspend_noirq callback while dpm_list_mtx is held — the lock discipline
the claim asserts for the no-interrupt phases fails already for a
one-device list. -/
theorem c3_counterexample :
    disciplineOK (dpm_suspend_noirq_trace [entNoirq]) = false := by
  decide

/-- C3 amended: the registry lock is never held across a device callback
or a completion wait in dpm_prepare, dpm_suspend, dpm_resume and
dpm_complete — those drivers release it around every callback — but the
no-interrupt drivers dpm_suspend_noirq and dpm_resume_noirq run all
their device callbacks with dpm_list_mtx held, so any run of them that
invokes a callback violates the discipline. -/
theorem c3_amended_lock_discipline (fuel : Nat) (l : List DevEntry) :
    disciplineOK (dpm_prepare_trace fuel l) = true
    ∧ disciplineOK (dpm_suspend_trace l) = true
    ∧ disciplineOK (dpm_resume_trace l) = true
    ∧ disciplineOK (dpm_complete_trace l) = true
    ∧ (hasCb (dpm_suspend_noirq_trace l) = true →
        disciplineOK (dpm_suspend_noirq_trace l) = false)
    ∧ (hasCb (dpm_resume_noirq_trace l) = true →
        disciplineOK (dpm_resume_noirq_trace l) = false) := by
  refine ⟨?_, ?_, ?_, ?_, suspend_noirq_trace_violation l, resume_noirq_trace_violation l⟩
  · exact disciplineOK_wrap _ (discipline_prepareEvs fuel l)
  · exact disciplineOK_wrap _ (discipline_suspendEvs l.reverse)
  · exact disciplineOK_wrap _ (discipline_resumeEvs l)
  · exact disciplineOK_wrap _ (discipline_completeEvs l.reverse)

/-- Closed witness for c3_amended_lock_discipline on a one-device list
whose device has noirq callbacks. -/
theorem c3_amended_lock_discipline_witness :
    disciplineOK (dpm_suspend_trace [entNoirqOff]) = true
    ∧ disciplineOK (dpm_suspend_noirq_trace [entNoirqOff]) = false
    ∧ disciplineOK (dpm_resume_noirq_trace [entNoirqOff]) = false := by
  refine ⟨(c3_amended_lock_discipline 1 [entNoirqOff]).2.1,
    (c3_amended_lock_discipline 1 [entNoirqOff]).2.2.2.2.1 (by decide),
    (c3_amended_lock_discipline 1 [entNoirqOff]).2.2.2.2.2 (by decide)⟩

theorem susp_reachable_inv (s : TwoDevState) (h : SuspReachable s) :
    1 ≤ s.parentPc → s.childPc = 4 := by
  unfold SuspReachable at h
  induction h with
  | refl =>
    intro h1
    simp [suspInit] at h1
  | tail hab step ih =>
    cases step with
    | childWait hpc =>
      intro h1
      simp at h1 ⊢
      have h4 := ih h1
      omega
    | childCb hpc =>
      intro h1
      simp at h1 ⊢
      have h4 := ih h1
      omega
    | childSetOff hpc =>
      intro h1
      simp at h1 ⊢
      have h4 := ih h1
      omega
    | childSignal hpc =>
      intro _
      rfl
    | parentWait hpc hch =>
      intro _
      simpa using hch
    | parentCb hpc =>
      intro _
      simpa using ih (by omega)
    | parentSetOff hpc =>
      intro _
      simpa using ih (by omega)
    | parentSignal hpc =>
      intro _
      simpa using ih (by omega)

theorem res_reachable_inv (s : TwoDevState) (h : ResReachable s) : ResInv s := by
  unfold ResReachable at h
  induction h with
  | refl =>
    refine ⟨Or.inl rfl, ?_, ?_⟩ <;> (intro h1; simp [resInit] at h1)
  | tail hab step ih =>
    obtain ⟨ia, ib, ic⟩ := ih
    cases step with
    | parentWait hpc =>
      refine ⟨ia, ?_, ?_⟩
      · intro h2
        simp at h2
      · intro hc
        simp at hc ⊢
        have := ic hc
        omega
    | parentSetResuming hpc =>
      refine ⟨Or.inr rfl, fun _ => rfl, ?_⟩
      · intro hc
        simp at hc ⊢
        have := ic hc
        omega
    | parentCb hpc =>
      refine ⟨ia, ?_, ?_⟩
      · intro _
        simpa using ib (by omega)
      · intro hc
        simp at hc ⊢
        have := ic hc
        omega
    | parentSignal hpc =>
      refine ⟨ia, ?_, fun _ => rfl⟩
      · intro _
        simpa using ib (by omega)
    | childWait hpc hg =>
      refine ⟨ia, fun h2 => ib (by simpa using h2), fun _ => ?_⟩
      rcases hg with hg | hg
      · exfalso
        rcases ia with h | h <;> simp [h, DpmState.code] at hg
      · simpa using hg
    | childSetResuming hpc =>
      refine ⟨ia, fun h2 => ib (by simpa using h2), fun _ => ?_⟩
      simpa using ic (by omega)
    | childCb hpc =>
      refine ⟨ia, fun h2 => ib (by simpa using h2), fun _ => ?_⟩
      simpa using ic (by omega)
    | childSignal hpc =>
      refine ⟨ia, fun h2 => ib (by simpa using h2), fun _ => ?_⟩
      simpa using ic (by omega)

/-- Counterexample to C2's suspend direction: the state in which the
child (the device with the dependency parent) has already run its
suspend callback (childPc = 2) while the parent's status is still
DPM_SUSPENDING — strictly below DPM_OFF, the SUSPENDING-done status — is
reachable: the child suspends first and never waits for the parent. -/
theorem c2_counterexample :
    SuspReachable ⟨0, 2, .DPM_SUSPENDING, .DPM_SUSPENDING⟩
    ∧ ¬ DpmState.DPM_OFF.code ≤
        (⟨0, 2, .DPM_SUSPENDING, .DPM_SUSPENDING⟩ : TwoDevState).parentStatus.code := by
  constructor
  · exact Relation.ReflTransGen.tail
      (Relation.ReflTransGen.tail Relation.ReflTransGen.refl
        (SuspStep.childWait suspInit rfl))
      (SuspStep.childCb _ rfl)
  · decide

/-- C2 amended: within one phase the wait-on-completion step enforces
dependency order regardless of interleaving, in the direction the code
actually implements — in the suspend phase the parent's callback never
starts before the child has signaled completion (dpm_wait_for_children),
and in the resume phase the child's callback never starts before the
parent has signaled, at which point the parent's status is already
DPM_RESUMING (dpm_wait on the parent). -/
theorem c2_amended_wait_enforces_dependency_order :
    (∀ s, SuspReachable s → 1 ≤ s.parentPc → s.childPc = 4)
    ∧ (∀ s, ResReachable s → 1 ≤ s.childPc →
        s.parentPc = 4 ∧ s.parentStatus = .DPM_RESUMING) := by
  constructor
  · exact fun s h => susp_reachable_inv s h
  · intro s h hc
    obtain ⟨ia, ib, ic⟩ := res_reachable_inv s h
    have h4 := ic hc
    exact ⟨h4, ib (by omega)⟩

/-- Closed witness for c2_amended_wait_enforces_dependency_order at
concrete reachable states of both phases. -/
theorem c2_amended_wait_enforces_dependency_order_witness :
    (⟨1, 4, .DPM_SUSPENDING, .DPM_OFF⟩ : TwoDevState).childPc = 4
    ∧ ((⟨4, 1, .DPM_RESUMING, .DPM_OFF⟩ : TwoDevState).parentPc = 4
        ∧ (⟨4, 1, .DPM_RESUMING, .DPM_OFF⟩ : TwoDevState).parentStatus = .DPM_RESUMING) := by
  constructor
  · have hreach : SuspReachable ⟨1, 4, .DPM_SUSPENDING, .DPM_OFF⟩ :=
      Relation.ReflTransGen.tail
        (Relation.ReflTransGen.tail
          (Relation.ReflTransGen.tail
            (Relation.ReflTransGen.tail
              (Relation.ReflTransGen.tail Relation.ReflTransGen.refl
                (SuspStep.childWait suspInit rfl))
              (SuspStep.childCb _ rfl))
            (SuspStep.childSetOff _ rfl))
          (SuspStep.childSignal _ rfl))
        (SuspStep.parentWait _ rfl rfl)
    exact c2_amended_wait_enforces_dependency_order.1 _ hreach (by decide)
  · have hreach : ResReachable ⟨4, 1, .DPM_RESUMING, .DPM_OFF⟩ :=
      Relation.ReflTransGen.tail
        (Relation.ReflTransGen.tail
          (Relation.ReflTransGen.tail
            (Relation.ReflTransGen.tail
              (Relation.ReflTransGen.tail Relation.ReflTransGen.refl
                (ResStep.parentWait resInit rfl))
              (ResStep.parentSetResuming _ rfl))
            (ResStep.parentCb _ rfl))
          (ResStep.parentSignal _ rfl))
        (ResStep.childWait _ rfl (Or.inr rfl))
    exact c2_amended_wait_enforces_dependency_order.2 _ hreach (by decide)

end LinuxPm
